import Mathlib

/-!
# Verification of the Blender ACES Manager configuration installer/switcher

A shallow embedding of the algorithmic core of `blender_aces_manager`
(`src/utils.py` and `src/operators.py`): the download manager, the archive
normalizer, the compatibility heuristic, the version parser/update checker,
the state ledger, and the switch orchestrator.  Pure Python string functions
are translated to functions on `List Char`; filesystem and network effects
are made explicit (state records threaded through the functions, with
oracles for the outcomes of external I/O such as network fetches and
directory copies).  Paths are modelled as canonical strings, so Python's
`os.path.abspath`/`os.path.normcase` are the identity on them.
-/

/-! ## Python string primitives

`utils.py` manipulates Python `str` values.  We model a Python string as a
`List Char` and translate the primitives used by the source: substring
containment (`in`), `str.strip`, `str.split('.')`, and `int(...)`. -/

/-- Python's substring test `pat in content` (`str.__contains__`):
`pat` occurs contiguously inside `content`. -/
def pyIn (pat content : List Char) : Bool := decide (pat <:+: content)

/-- Python's `str.strip()`: remove whitespace from both ends. -/
def pyStrip (l : List Char) : List Char :=
  ((l.dropWhile Char.isWhitespace).reverse.dropWhile Char.isWhitespace).reverse

/-- Python's `str.split('.')`: split on every dot, keeping empty pieces
(`"".split('.') == [""]`, `"1..2".split('.') == ["1", "", "2"]`). -/
def pySplitDot : List Char → List (List Char)
  | [] => [[]]
  | c :: rest =>
    let r := pySplitDot rest
    if c = '.' then [] :: r
    else
      match r with
      | h :: t => (c :: h) :: t
      | [] => [[c]]

/-- Python's `int(p)` on a version-tag piece, as a partial function:
defined exactly on nonempty all-digit strings, where it returns the decimal
value; `none` models the `ValueError` that `int` raises otherwise (Python's
`int` also accepts signs, surrounding whitespace and `_` separators, which
never occur in version tags and are not modelled). -/
def pyint? (s : List Char) : Option Nat :=
  if s ≠ [] ∧ s.all Char.isDigit then
    some (s.foldl (fun acc c => 10 * acc + (c.toNat - 48)) 0)
  else none

/-! ## Compatibility heuristic (`utils.is_config_potentially_incompatible`)

`utils.py` lines 473-490.  The file read is modelled by passing the file's
text directly; the `except` branch (unreadable file) is not reachable in
the pure model. -/

/-- `is_config_potentially_incompatible` from `utils.py`: flags a config
whose text contains both `"roles:"` and `"XYZ:"` (a role declaration for
`XYZ`) and both `"name:"` and `"name: XYZ"` (a colorspace named `XYZ`). -/
def is_config_potentially_incompatible (content : List Char) : Bool :=
  let has_role_xyz := pyIn "roles:".toList content && pyIn "XYZ:".toList content
  let has_colorspace_named_xyz := pyIn "name:".toList content && pyIn "name: XYZ".toList content
  has_role_xyz && has_colorspace_named_xyz

/-! ## Version parsing and comparison (`utils._parse_version_string`) -/

/-- `_parse_version_string` from `utils.py` lines 159-171: strip, drop a
leading `v`/`V`, split on dots, keep the pieces whose first character is a
digit, convert with `int` (a `ValueError` anywhere yields `(0,0,0)` via the
`except` clause), truncate to three components and pad with zeros. -/
def _parse_version_string (version_str : String) : Nat × Nat × Nat :=
  let v := pyStrip version_str.toList
  let v :=
    match v with
    | c :: rest => if c = 'v' ∨ c = 'V' then rest else v
    | [] => v
  let selected := (pySplitDot v).filter fun p => !p.isEmpty && (p.headD ' ').isDigit
  match selected.mapM pyint? with
  | none => (0, 0, 0)
  | some parts =>
    match parts.take 3 with
    | [] => (0, 0, 0)
    | [a] => (a, 0, 0)
    | [a, b] => (a, b, 0)
    | a :: b :: c :: _ => (a, b, c)

/-- Python's `<` on integer 3-tuples: lexicographic comparison.  The update
check's `latest_tuple > current_version` is `pyTupleLt current latest`. -/
def pyTupleLt (a b : Nat × Nat × Nat) : Bool :=
  a.1.blt b.1 || (a.1.beq b.1 &&
    (a.2.1.blt b.2.1 || (a.2.1.beq b.2.1 && a.2.2.blt b.2.2)))

/-! ## State ledger (`state.json`; `utils.load_state` / `utils.save_state`)

The ledger document (spec section 3) is `{update, backups}`.  The file on
disk is modelled by `StateFile`: absent, present-but-unparseable (in which
case `json.load` raises and `load_state` swallows the exception), or valid
with a parsed ledger. -/

/-- A backup record appended to the ledger by the two backup routines
(`utils.py` lines 768-772 and 823-828).  `kind` is the optional `"type"`
key, `some "default"` for default-config backups. -/
structure BackupRecord where
  time : String
  src_dir : String
  backup_dir : String
  kind : Option String
deriving DecidableEq, Repr

/-- The update-check result persisted under the ledger's `update` key
(`utils.check_addon_update`, lines 257-264). -/
structure UpdateResult where
  current_version : String
  latest_version : String
  update_available : Bool
  asset_url : Option String
  html_url : Option String
  checked_at : Nat
deriving DecidableEq, Repr

/-- The parsed `state.json` document: `{update: UpdateCheckResult, backups: [BackupRecord]}`. -/
structure Ledger where
  update : Option UpdateResult := none
  backups : List BackupRecord := []
deriving DecidableEq, Repr

/-- The `state.json` file on disk: missing, unparseable (a `json.load`
failure), or holding a valid ledger document. -/
inductive StateFile where
  | absent
  | corrupt
  | valid (l : Ledger)
deriving DecidableEq, Repr

/-- `load_state` from `utils.py` lines 59-67: return the parsed document;
if the file is missing, or reading/parsing raises, return the empty dict. -/
def load_state : StateFile → Ledger
  | .absent => {}
  | .corrupt => {}
  | .valid l => l

/-- `save_state` from `utils.py` lines 70-76: overwrite `state.json` with
the given document (the write itself succeeding; a failed write is
swallowed by the source and not modelled). -/
def save_state (state : Ledger) : StateFile := .valid state

/-! ## Update checker (`utils.check_addon_update`) -/

/-- The fields of `get_latest_release_info`'s result that
`check_addon_update` consumes. -/
structure ReleaseInfo where
  version : String
  asset_url : Option String
  html_url : Option String
deriving DecidableEq, Repr

/-- Rendering of a version triple as `f"{v[0]}.{v[1]}.{v[2]}"`. -/
def versionString (v : Nat × Nat × Nat) : String :=
  toString v.1 ++ "." ++ toString v.2.1 ++ "." ++ toString v.2.2

/-- `check_addon_update` from `utils.py` lines 250-281.  `current_version`
is the add-on's `bl_info` version read by `_get_addon_module_and_version`;
`info` is `get_latest_release_info`'s network result (`none` on failure);
`f` is the `state.json` file and `now` the wall-clock for `checked_at`.
Returns the result dict and the rewritten state file. -/
def check_addon_update (current_version : Nat × Nat × Nat) (info : Option ReleaseInfo)
    (f : StateFile) (now : Nat) : UpdateResult × StateFile :=
  let result : UpdateResult :=
    { current_version := versionString current_version
      latest_version := ""
      update_available := false
      asset_url := none
      html_url := none
      checked_at := now }
  match info with
  | none =>
    let state := load_state f
    (result, save_state { state with update := some result })
  | some i =>
    let latest_tuple :=
      _parse_version_string (if i.version = "" then "0.0.0" else i.version)
    let result :=
      { result with
        latest_version := versionString latest_tuple
        update_available := pyTupleLt current_version latest_tuple
        asset_url := i.asset_url
        html_url := i.html_url }
    let state := load_state f
    (result, save_state { state with update := some result })

/-! ## Download manager (`utils.download_zip`)

`utils.py` lines 102-120.  The function's externally visible filesystem
effects are the temporary file created by `tempfile.mkstemp(suffix=".zip")`
and the destination path.  Two facts about the Python library calls are
part of the model:

* `tempfile.mkstemp` with no `dir` argument creates the file in the
  system's default temporary directory, wherever that is — nothing ties it
  to `dest_zip_path`'s directory or filesystem.  Whether the two end up on
  the same filesystem is therefore an environment fact, the `sameFS`
  oracle.
* `shutil.move(src, dst)` is `os.rename` (one atomic step) when `src` and
  `dst` are on the same filesystem; otherwise it copies `src` to `dst`
  (during which `dst` holds a growing partial copy) and then removes `src`.

A run is the ordered list of observable `(tmp, dest)` filesystem states
together with the success flag; `fetchOk` is the outcome of
`urllib.request.urlretrieve` and `moveOk` the outcome of `shutil.move`. -/

/-- Contents of a path during a `download_zip` run: missing, created empty,
holding a strict prefix of the payload, or holding the full payload. -/
inductive FileContent where
  | absent
  | empty
  | partialData
  | full
deriving DecidableEq, Repr

/-- One observable filesystem state during `download_zip`: the temporary
file and the destination path. -/
structure DLState where
  tmp : FileContent
  dest : FileContent
deriving DecidableEq, Repr

/-- `download_zip` from `utils.py` lines 102-120, as the ordered trace of
observable filesystem states plus the success flag.  `mkstemp` creates the
empty temporary file; `urlretrieve` streams into it (failing part-way if
`fetchOk` is false, after which the `finally` block removes it);
`shutil.move` renames atomically on the same filesystem and copies
otherwise; the `finally` block removes the temporary file whenever it still
exists. -/
def download_zip (fetchOk sameFS moveOk : Bool) (dest0 : FileContent) :
    List DLState × Bool :=
  let s0 : DLState := ⟨.absent, dest0⟩
  let s1 : DLState := ⟨.empty, dest0⟩
  if fetchOk then
    let s2 : DLState := ⟨.partialData, dest0⟩
    let s3 : DLState := ⟨.full, dest0⟩
    if sameFS then
      if moveOk then
        ([s0, s1, s2, s3, ⟨.absent, .full⟩], true)
      else
        ([s0, s1, s2, s3, ⟨.absent, dest0⟩], false)
    else
      if moveOk then
        ([s0, s1, s2, s3, ⟨.full, .partialData⟩, ⟨.full, .full⟩, ⟨.absent, .full⟩], true)
      else
        ([s0, s1, s2, s3, ⟨.full, .partialData⟩, ⟨.absent, .partialData⟩], false)
  else
    ([s0, s1, ⟨.partialData, dest0⟩, ⟨.absent, dest0⟩], false)

/-! ## Archive normalizer (`utils.install_aces_from_zip_url`)

`utils.py` lines 493-604.  The pipeline's external effects are reduced to
the one piece of state the staged profile lives in: whether
`aces/config/config.ocio` (the canonical marker) exists.  Stage outcomes
that depend on the network and filesystem are oracles in `InstallEnv`; the
located config's text feeds the real compatibility heuristic.  Two failure
paths of the source deliberately stay visible in the model, because both
can leave a marker file behind after a failed run:

* the initial cleaning loop (lines 510-518) swallows every per-item
  removal error (`except Exception: pass`), so when the removal of the
  previously staged `config` directory fails the old marker survives the
  clearing stage — the `clearOk` oracle;
* the staging step (lines 581-586: an `rmtree` of any leftover followed by
  `shutil.copytree`) runs inside one `try`; `shutil.copytree` copies every
  file it can and raises `shutil.Error` only at the end, so a failing
  staging step may already have deposited the marker (and a failing
  `rmtree` may have left the old one) — the `copyPartialMarker` oracle
  says whether a marker is present after a failed staging step.

Progress callbacks have no bearing on the result and are omitted. -/

/-- Oracles for the effectful stages of `install_aces_from_zip_url`:
whether the initial cleaning loop manages to remove the previously staged
config (its per-item exceptions are swallowed), whether `download_zip`
succeeds (and the exception text otherwise), whether `zipfile` extraction
succeeds, the text of the `config.ocio` located by `find_config_ocio`
(`none` when the walk finds no marker), whether the staging step
(leftover `rmtree` plus `shutil.copytree` into `aces/config`) succeeds,
and — when it fails — whether a marker file is nevertheless present at
`aces/config/config.ocio` afterwards (a partial `copytree` deposits files
before raising; a failed `rmtree` can leave the old marker). -/
structure InstallEnv where
  clearOk : Bool
  downloadOk : Bool
  downloadErr : String
  extractOk : Bool
  extractErr : String
  foundConfig : Option (List Char)
  copyOk : Bool
  copyErr : String
  copyPartialMarker : Bool

/-- `install_aces_from_zip_url` from `utils.py` lines 493-604.  The `Bool`
argument and the `Bool` in the result are the staged-profile state (does
`aces/config/config.ocio` exist) before and after the call; the first
component is the source's `(success, config_dir, message)` triple.  After
the error-swallowing cleaning loop the old marker survives exactly when it
existed and its removal failed; every pre-staging failure returns with that
state, a failed staging step leaves a marker as dictated by
`copyPartialMarker`, and only a fully successful run stages the profile. -/
def install_aces_from_zip_url (env : InstallEnv) (staged0 : Bool) :
    (Bool × Option String × String) × Bool :=
  let staged := staged0 && !env.clearOk
  if !env.downloadOk then
    ((false, none, "Download failed: " ++ env.downloadErr), staged)
  else if !env.extractOk then
    ((false, none, "Extraction failed: " ++ env.extractErr), staged)
  else
    match env.foundConfig with
    | none =>
      ((false, none, "Could not find config.ocio in the downloaded archive"), staged)
    | some content =>
      if is_config_potentially_incompatible content then
        ((false, none,
          "Downloaded config appears incompatible with OCIO v2 (XYZ role/name conflict)"),
         staged)
      else if !env.copyOk then
        ((false, none, "Failed to stage ACES config: " ++ env.copyErr), env.copyPartialMarker)
      else
        ((true, some "aces/config", "ACES configuration installed"), true)

/-! ## Fallback-source loop
(`operators.BAM_OT_install_aces._install_aces_thread`, `utils.switch_to_aces`)

Both sites build `urls` as the stripped preference URL (when nonempty)
followed by `DEFAULT_ZIP_URLS` and run the same `for`/`else` loop: stop at
the first successful `install_aces_from_zip_url`, remember the failure
message of every failed attempt, and if no source succeeds report the last
message (or a fixed default when no attempt produced one).  The per-URL
outcome is the `attempt` oracle: `(ok, message)` of
`install_aces_from_zip_url` — in the thread version a raised exception is
also turned into a message (`operators.py` lines 64-65). -/

/-- `DEFAULT_ZIP_URLS` from `utils.py` lines 17-25. -/
def DEFAULT_ZIP_URLS : List String :=
  ["https://github.com/AcademySoftwareFoundation/OpenColorIO-Config-ACES/archive/refs/heads/main.zip",
   "https://github.com/thezakman/ACES-blender-colour-management/archive/refs/heads/main.zip",
   "https://github.com/thezakman/ACES-blender-colour-management/archive/refs/heads/master.zip",
   "https://github.com/qweryty/Blender-Optimized-ACES/archive/refs/heads/main.zip",
   "https://github.com/qweryty/Blender-Optimized-ACES/archive/refs/heads/master.zip"]

/-- Python `str.strip` lifted back to `String`. -/
def pyStripStr (s : String) : String := String.mk (pyStrip s.toList)

/-- The `urls` list both call sites build: the stripped
`prefs.aces_repo_preference` first when nonempty, then `DEFAULT_ZIP_URLS`
in order. -/
def buildUrls (pref : String) : List String :=
  (if pyStripStr pref ≠ "" then [pyStripStr pref] else []) ++ DEFAULT_ZIP_URLS

/-- The `for url in urls` / `else` loop shared by
`BAM_OT_install_aces._install_aces_thread` (`operators.py` lines 52-68) and
`switch_to_aces` (`utils.py` lines 843-850): returns the success flag, the
reported message (on failure `last_error or default`), and the list of
sources actually attempted, in order. -/
def tryUrlsRun (attempt : String → Bool × String) (default : String) :
    List String → Option String → Bool × String × List String
  | [], lastError => (false, lastError.getD default, [])
  | url :: rest, lastError =>
    let (ok, msg) := attempt url
    if ok then (true, msg, [url])
    else
      let r := tryUrlsRun attempt default rest (some msg)
      (r.1, r.2.1, url :: r.2.2)

/-- `_install_aces_thread` from `operators.py` lines 43-73, reduced to its
source-selection behaviour: the loop over `buildUrls` with the thread's
default failure message. -/
def install_aces_thread (pref : String) (attempt : String → Bool × String) :
    Bool × String × List String :=
  tryUrlsRun attempt "Failed to install ACES" (buildUrls pref) none

/-! ## System state and the switch orchestrator

State visible to `switch_to_aces` / `switch_to_default` /
`BAM_OT_uninstall_aces` and the backup routines: the files under the
add-on's data directory and host install, the OCIO override preference
(`""` when unset, as read and written by the version-gated
`get_ocio_config_override` / `set_ocio_config_override` — the preference
attribute is modelled as present, which is the Blender 4.x main path), the
`OCIO` process environment variable, the `state.json` file, the number of
backup directories created under `backups/`, and flags for
`bpy.ops.wm.save_userpref` and a triggered restart.  Paths are canonical
strings relative to the data directory, so `os.path.abspath` /
`os.path.normcase` are the identity. -/

/-- The observable host/filesystem state threaded through the switcher. -/
structure SysState where
  files : List String
  override : String
  envOCIO : Option String
  stateFile : StateFile
  backupDirsCreated : Nat
  prefsSaved : Bool
  restarted : Bool
deriving DecidableEq, Repr

/-- `get_aces_config_path` from `utils.py` lines 607-608: the canonical
marker path `aces/config/config.ocio` under the data directory. -/
def get_aces_config_path : String := "aces/config/config.ocio"

/-- `is_aces_installed` from `utils.py` lines 611-612: the marker file
exists. -/
def is_aces_installed (st : SysState) : Bool :=
  st.files.contains get_aces_config_path

/-- `is_using_aces` from `utils.py` lines 711-718: the stored override
equals the canonical installed-profile path (paths being canonical, the
`normcase`/`abspath` normalisation is the identity). -/
def is_using_aces (st : SysState) : Bool :=
  st.override == get_aces_config_path

/-- `os.path.dirname` on a canonical relative `/`-separated path:
everything before the last separator (empty when there is none). -/
def dirname (p : String) : String :=
  String.mk (((p.toList.reverse.dropWhile fun c => c ≠ '/').drop 1).reverse)

/-- Oracle inputs of `backup_current_override_if_any`: the
`time.strftime` timestamp and whether `shutil.copytree` succeeds. -/
structure BackupEnv where
  timestamp : String
  copyOk : Bool
deriving DecidableEq, Repr

/-- `backup_current_override_if_any` from `utils.py` lines 746-775: if an
override is set and points at an existing file, copy its parent directory
to `backups/backup_<timestamp>` and append a record to the ledger; any
early exit (no override, missing file, failed copy) returns `None` with
nothing changed.  The `isdir` check on the parent of an existing file
always passes in the model. -/
def backup_current_override_if_any (env : BackupEnv) (st : SysState) :
    Option String × SysState :=
  let override_path := st.override
  if override_path = "" then (none, st)
  else if !st.files.contains override_path then (none, st)
  else
    let src_dir := dirname override_path
    let backup_dir := "backups/backup_" ++ env.timestamp
    if !env.copyOk then (none, st)
    else
      let state := load_state st.stateFile
      let state :=
        { state with
          backups := state.backups ++
            [{ time := env.timestamp, src_dir := src_dir,
               backup_dir := backup_dir, kind := none }] }
      (some backup_dir,
       { st with stateFile := save_state state,
                 backupDirsCreated := st.backupDirsCreated + 1 })

/-- Oracle inputs of `backup_default_config_if_possible`: the directory the
walk near the Blender binary finds (`none` covers both an empty
`bpy.app.binary_path` and an unsuccessful search), the timestamp, and the
`shutil.copytree` outcome. -/
structure DefaultBackupEnv where
  foundConfigDir : Option String
  timestamp : String
  copyOk : Bool
deriving DecidableEq, Repr

/-- `backup_default_config_if_possible` from `utils.py` lines 785-831: back
up the host's bundled `colormanagement` config directory, if one is found,
to `backups/default_backup_<timestamp>` and append a `type: "default"`
record; every early exit returns `None` with nothing changed. -/
def backup_default_config_if_possible (env : DefaultBackupEnv) (st : SysState) :
    Option String × SysState :=
  match env.foundConfigDir with
  | none => (none, st)
  | some found_config_dir =>
    let backup_dir := "backups/default_backup_" ++ env.timestamp
    if !env.copyOk then (none, st)
    else
      let state := load_state st.stateFile
      let state :=
        { state with
          backups := state.backups ++
            [{ time := env.timestamp, src_dir := found_config_dir,
               backup_dir := backup_dir, kind := some "default" }] }
      (some backup_dir,
       { st with stateFile := save_state state,
                 backupDirsCreated := st.backupDirsCreated + 1 })

/-- `set_ocio_config_override` from `utils.py` lines 655-709 on the main
path (the version-gated preference attribute is available): store the path
in the preference. -/
def set_ocio_config_override (path : String) (st : SysState) : SysState :=
  { st with override := path }

/-- `save_user_prefs` from `utils.py` lines 778-782. -/
def save_user_prefs (st : SysState) : SysState :=
  { st with prefsSaved := true }

/-- `restart_blender_with_same_file` from `utils.py` lines 924-970, reduced
to its observable flag (the spawned process and quit are outside the
model). -/
def restart_blender_with_same_file (st : SysState) : SysState :=
  { st with restarted := true }

/-- `switch_to_aces` from `utils.py` lines 834-872.  `attempt` is the
per-URL outcome of `install_aces_from_zip_url` for the not-yet-installed
branch (a success creates the marker file), `pref` the
`aces_repo_preference` preference; `benv`/`denv` feed the two backup
routines. -/
def switch_to_aces (attempt : String → Bool × String) (pref : String)
    (benv : BackupEnv) (denv : DefaultBackupEnv) (auto_restart : Bool)
    (st : SysState) : (Bool × String) × SysState :=
  let installed := is_aces_installed st
  let afterInstall : Option SysState :=
    if installed then some st
    else
      let r := tryUrlsRun attempt "Failed to install ACES configuration" (buildUrls pref) none
      if r.1 then some { st with files := get_aces_config_path :: st.files }
      else none
  match afterInstall with
  | none =>
    let r := tryUrlsRun attempt "Failed to install ACES configuration" (buildUrls pref) none
    ((false, r.2.1), st)
  | some st =>
    let current_override := st.override
    let aces_config_path := get_aces_config_path
    let st :=
      if current_override ≠ "" then
        if current_override ≠ aces_config_path then
          (backup_current_override_if_any benv st).2
        else st
      else (backup_default_config_if_possible denv st).2
    let st := set_ocio_config_override aces_config_path st
    let st := save_user_prefs st
    if auto_restart then
      ((true, "Switched to ACES and restarting Blender"),
       restart_blender_with_same_file st)
    else
      ((true, "Switched to ACES; restart Blender to apply fully"), st)

/-- `switch_to_default` from `utils.py` lines 875-921: back up the current
override if one is set, clear the preference (the version-gated attribute
being available), drop the `OCIO` environment variable, persist
preferences, optionally restart. -/
def switch_to_default (benv : BackupEnv) (auto_restart : Bool) (st : SysState) :
    (Bool × String) × SysState :=
  let current_override := st.override
  let st :=
    if current_override ≠ "" then (backup_current_override_if_any benv st).2
    else st
  let st := { st with override := "" }
  let st := { st with envOCIO := none }
  let st := save_user_prefs st
  if auto_restart then
    ((true, "Switched to Blender default and restarting Blender"),
     restart_blender_with_same_file st)
  else
    ((true, "Switched to Blender default; restart Blender to apply"), st)

/-! ## Uninstall operator (`operators.BAM_OT_uninstall_aces`) -/

/-- Outcome of `Operator.report`. -/
inductive OpReport where
  | info (msg : String)
  | warning (msg : String)
  | error (msg : String)
deriving DecidableEq, Repr

/-- An operator's return status. -/
inductive OpStatus where
  | finished
  | cancelled
deriving DecidableEq, Repr

/-- Modelled from the spec: `utils.uninstall_aces`.  The function is called
by `BAM_OT_uninstall_aces.execute` (`operators.py` line 288) but is not
present in `src/utils.py`; the spec says the installed profile — the tree
under the `aces` data directory whose sole is-installed signal is the
marker file `aces/config/config.ocio` — is "destroyed by an explicit
uninstall" (section 3), the confirmation dialog names `get_aces_dir()` as
what "will [be] remove[d]" (`operators.py` lines 322-327), and the caller
treats the returned pair as `(success, message)`.  So: remove everything
under `aces/` and report success. -/
def uninstall_aces (st : SysState) : (Bool × String) × SysState :=
  ((true, "ACES configuration removed"),
   { st with files := st.files.filter fun p => !List.isPrefixOf "aces/".toList p.toList })

/-- `BAM_OT_uninstall_aces.execute` from `operators.py` lines 275-297:
refuse while ACES is active, ask for confirmation (`confirmOk`, which the
non-interactive fallback forces to true), then run `uninstall_aces` and
report its message with `FINISHED` on success. -/
def BAM_OT_uninstall_aces_execute (confirmOk : Bool) (st : SysState) :
    (OpStatus × Option OpReport) × SysState :=
  if is_using_aces st then
    ((.cancelled,
      some (.error "Cannot uninstall ACES while it's active. Switch to default first.")),
     st)
  else if !confirmOk then ((.cancelled, none), st)
  else
    let r := uninstall_aces st
    if r.1.1 then ((.finished, some (.info r.1.2)), r.2)
    else ((.cancelled, some (.error r.1.2)), r.2)

/-! ## Self-update repack step (`utils.install_addon_from_zip`)

`utils.py` lines 332-377.  An archive is modelled as its list of file
entries, each a path in `/`-separated component form (nonempty, with no
separator inside a component) paired with the file's bytes.  The source
computes the set of top-level names (skipping empty names and
`__MACOSX/...` entries), and when there is exactly one and it differs from
`blender_aces_manager` it extracts the archive, copies the single top
folder under the desired name and re-zips every file below it — i.e. keeps
exactly the files under that top folder, with the root component renamed.
The model assumes the single top-level entry is a directory (the claim's
premise; for a top-level plain file `shutil.copytree` would raise and the
source would fall back to the unmodified archive). -/

/-- The expected module folder name (`desired` in the source). -/
def desired_module_name : String := "blender_aces_manager"

/-- The `if not n or n.startswith("__MACOSX/")` skip in the top-level scan
(`operators` names in component form: an empty path is an empty name, and a
name starts with `"__MACOSX/"` exactly when its first component is
`__MACOSX` followed by at least one more component). -/
def skipInTopLevel (p : List String) : Bool :=
  match p with
  | [] => true
  | h :: rest => h == "__MACOSX" && !rest.isEmpty

/-- The set of top-level names of the archive (`top_levels` in the source),
as a deduplicated list. -/
def zipTopLevels (entries : List (List String × String)) : List String :=
  (((entries.filter fun e => !skipInTopLevel e.1).filterMap
      fun e => e.1.head?).dedup)

/-- The repack step of `install_addon_from_zip` (`utils.py` lines 345-374):
when the archive has exactly one top-level name and it is not
`blender_aces_manager`, re-zip the files under that folder with the root
component renamed; otherwise the archive is used as is. -/
def install_addon_from_zip_repack (entries : List (List String × String)) :
    List (List String × String) :=
  match zipTopLevels entries with
  | [top] =>
    if top ≠ desired_module_name then
      (entries.filter fun e => e.1.head? == some top).map
        fun e => (desired_module_name :: e.1.tail, e.2)
    else entries
  | _ => entries

/-! ## Shared helper lemmas -/

/-- Appending to a nonempty string yields a nonempty string. -/
theorem append_ne_empty_left (s t : String) (h : s ≠ "") : s ++ t ≠ "" := by
  cases s with | mk l =>
  cases t with | mk m =>
  intro heq
  apply h
  have hd : l ++ m = ([] : List Char) := congrArg String.data heq
  have hl : l = [] := (List.append_eq_nil.mp hd).1
  subst hl
  rfl

/-- The fallback loop stops at the first successful source: with every
source before `u` failing and `u` succeeding, the loop returns success with
`u`'s message, whatever follows `u`. -/
theorem tryUrlsRun_first_success (attempt : String → Bool × String) (d : String) :
    ∀ (pre : List String) (u : String) (post : List String) (le : Option String),
      (∀ v ∈ pre, (attempt v).1 = false) → (attempt u).1 = true →
      tryUrlsRun attempt d (pre ++ u :: post) le = (true, (attempt u).2, pre ++ [u]) := by
  intro pre
  induction pre with
  | nil =>
    intro u post le _ hu
    cases hval : attempt u with
    | mk ok msg =>
      simp [tryUrlsRun, hval, hval ▸ hu]
  | cons a pre ih =>
    intro u post le hpre hu
    cases hval : attempt a with
    | mk ok msg =>
      have ha : ok = false := by
        have := hpre a (by simp)
        rwa [hval] at this
      subst ha
      have hih := ih u post (some msg) (fun v hv => hpre v (by simp [hv])) hu
      simp [tryUrlsRun, hval, List.append_eq, hih]

/-- When every source fails, the fallback loop attempts them all and the
reported message is the final source's failure message. -/
theorem tryUrlsRun_all_fail_concat (attempt : String → Bool × String) (d : String) :
    ∀ (pre : List String) (last : String) (le : Option String),
      (∀ v ∈ pre, (attempt v).1 = false) → (attempt last).1 = false →
      tryUrlsRun attempt d (pre ++ [last]) le = (false, (attempt last).2, pre ++ [last]) := by
  intro pre
  induction pre with
  | nil =>
    intro last le _ hl
    cases hval : attempt last with
    | mk ok msg =>
      have : ok = false := by rwa [hval] at hl
      subst this
      simp [tryUrlsRun, hval]
  | cons a pre ih =>
    intro last le hpre hl
    cases hval : attempt a with
    | mk ok msg =>
      have ha : ok = false := by
        have := hpre a (by simp)
        rwa [hval] at this
      subst ha
      have hih := ih last (some msg) (fun v hv => hpre v (by simp [hv])) hl
      simp [tryUrlsRun, hval, List.append_eq, hih]

/-- The source list is never empty: `DEFAULT_ZIP_URLS` always follows the
optional preference URL. -/
theorem buildUrls_ne_nil (pref : String) : buildUrls pref ≠ [] := by
  by_cases h : pyStripStr pref = "" <;> simp [buildUrls, DEFAULT_ZIP_URLS, h]

/-- A nonempty list whose elements are all `t` deduplicates to `[t]`. -/
theorem dedup_of_all_eq {α : Type} [DecidableEq α] (l : List α) (t : α) (hne : l ≠ [])
    (h : ∀ x ∈ l, x = t) : l.dedup = [t] := by
  have hrep : l = List.replicate l.length t := by
    rw [List.eq_replicate_iff]
    exact ⟨rfl, h⟩
  rw [hrep, List.replicate_dedup]
  simpa using hne

/-- A nonempty archive all of whose entries start with the top-level
component `top` (not `__MACOSX`) has exactly that one top-level name. -/
theorem zipTopLevels_const (entries : List (List String × String)) (top : String)
    (hmac : top ≠ "__MACOSX") (hne : entries ≠ [])
    (hall : ∀ e ∈ entries, e.1.head? = some top) :
    zipTopLevels entries = [top] := by
  have hskip : ∀ e ∈ entries, skipInTopLevel e.1 = false := by
    intro e he
    have hh := hall e he
    cases hp : e.1 with
    | nil => rw [hp] at hh; simp at hh
    | cons h rest =>
      rw [hp] at hh
      simp at hh
      subst hh
      simp [skipInTopLevel, hmac]
  have hfilter : entries.filter (fun e => !skipInTopLevel e.1) = entries :=
    List.filter_eq_self.mpr (fun e he => by simp [hskip e he])
  unfold zipTopLevels
  rw [hfilter]
  apply dedup_of_all_eq
  · intro hnil
    obtain ⟨e, he⟩ := List.exists_mem_of_ne_nil entries hne
    have : top ∈ entries.filterMap fun e => e.1.head? :=
      List.mem_filterMap.mpr ⟨e, he, hall e he⟩
    rw [hnil] at this
    simp at this
  · intro x hx
    obtain ⟨e, he, hhead⟩ := List.mem_filterMap.mp hx
    have := hall e he
    rw [this] at hhead
    exact (Option.some_inj.mp hhead).symm

/-! ## Claim theorems -/

/-- C1: in a state where the custom profile is installed and not currently
active, a confirmed run of `BAM_OT_uninstall_aces.execute` destroys the
installed profile: it returns `FINISHED`, reports the success message, and
afterwards the canonical marker file `aces/config/config.ocio` no longer
exists (`uninstall_aces` itself is modelled from the spec, being absent
from `src/utils.py`). -/
theorem uninstall_destroys_installed_profile (st : SysState)
    (_hinst : is_aces_installed st = true)
    (hnact : is_using_aces st = false) :
    (BAM_OT_uninstall_aces_execute true st).1.1 = .finished ∧
    (BAM_OT_uninstall_aces_execute true st).1.2 = some (.info "ACES configuration removed") ∧
    is_aces_installed (BAM_OT_uninstall_aces_execute true st).2 = false ∧
    get_aces_config_path ∉ (BAM_OT_uninstall_aces_execute true st).2.files := by
  have hrun : BAM_OT_uninstall_aces_execute true st =
      ((.finished, some (.info "ACES configuration removed")),
       { st with files := st.files.filter fun p => !List.isPrefixOf "aces/".toList p.toList }) := by
    simp [BAM_OT_uninstall_aces_execute, hnact, uninstall_aces]
  rw [hrun]
  refine ⟨rfl, rfl, ?_, ?_⟩
  · simp only [is_aces_installed, List.contains]
    simp [List.mem_filter]
    exact fun _ => by decide
  · simp [List.mem_filter]
    exact fun _ => by decide

/-- C1 witness: a concrete installed, inactive state in which the uninstall
operator removes the marker file and finishes. -/
theorem uninstall_destroys_installed_profile_witness :
    is_aces_installed
      (BAM_OT_uninstall_aces_execute true
        ⟨["aces/config/config.ocio", "keep.txt"], "", none, .absent, 0, false, false⟩).2 = false ∧
    (BAM_OT_uninstall_aces_execute true
        ⟨["aces/config/config.ocio", "keep.txt"], "", none, .absent, 0, false, false⟩).1.1 = .finished := by
  have h := uninstall_destroys_installed_profile
    ⟨["aces/config/config.ocio", "keep.txt"], "", none, .absent, 0, false, false⟩
    (by decide) (by decide)
  exact ⟨h.2.2.1, h.1⟩

/-- C2 counterexample: the claim "the temporary file is created in the same
filesystem as the destination and an atomic rename means no half-written
file ever appears at the destination" is false of the code:
`tempfile.mkstemp(suffix=".zip")` puts the temporary file in the system
temporary directory, and when that is a different filesystem from the
destination `shutil.move` copies — so on the concrete run with
`fetchOk = true, sameFS = false, moveOk = true` onto an absent destination
a half-written destination file appears mid-run, and on the run whose move
fails a half-written file is even left behind. -/
theorem download_zip_not_atomic_counterexample :
    (download_zip true false true .absent).2 = true ∧
    (⟨.full, .partialData⟩ : DLState) ∈ (download_zip true false true .absent).1 ∧
    (download_zip true false false .absent).2 = false ∧
    (download_zip true false false .absent).1.getLast? = some ⟨.absent, .partialData⟩ := by
  decide

/-- C2 (amended): `download_zip` streams to a temporary file in the system
temporary directory and moves it into place with `shutil.move`.  When the
temporary file is on the same filesystem as the destination the move is an
atomic rename: no half-written file ever appears at the destination, and
any failing run removes the temporary file and leaves the destination
untouched; independently of filesystems, a download that fails during the
network fetch removes the temporary file and leaves the destination
untouched. -/
theorem download_zip_same_filesystem_safe (fetchOk sameFS moveOk : Bool)
    (dest0 : FileContent) :
    (sameFS = true →
      ∀ s ∈ (download_zip fetchOk sameFS moveOk dest0).1, s.dest = dest0 ∨ s.dest = .full) ∧
    (sameFS = true → (download_zip fetchOk sameFS moveOk dest0).2 = false →
      (download_zip fetchOk sameFS moveOk dest0).1.getLast? = some ⟨.absent, dest0⟩) ∧
    (fetchOk = false →
      (download_zip fetchOk sameFS moveOk dest0).2 = false ∧
      (download_zip fetchOk sameFS moveOk dest0).1.getLast? = some ⟨.absent, dest0⟩) := by
  cases fetchOk <;> cases sameFS <;> cases moveOk <;> cases dest0 <;> decide

/-- C2 witness: concrete same-filesystem runs — a successful one whose
destination is only ever absent or complete, and a failed fetch that leaves
the pre-existing destination untouched with the temporary file removed. -/
theorem download_zip_same_filesystem_safe_witness :
    (∀ s ∈ (download_zip true true true .absent).1, s.dest = .absent ∨ s.dest = .full) ∧
    (download_zip false true true .empty).1.getLast? = some ⟨.absent, .empty⟩ :=
  ⟨(download_zip_same_filesystem_safe true true true .absent).1 rfl,
   ((download_zip_same_filesystem_safe false true true .empty).2.2 rfl).2⟩

/-- C3 counterexample: a failed run of `install_aces_from_zip_url` can end
with a staged marker present, contradicting "a failed re-install leaves no
staged profile behind": (a) when the error-swallowing clearing loop fails
to remove the old staged config and the download then fails, the previous
marker survives the failed run; (b) even from a clean state, a failing
staging step whose `shutil.copytree` already deposited the marker before
raising leaves `aces/config/config.ocio` present. -/
theorem install_failure_can_leave_staged_marker :
    ((install_aces_from_zip_url
        ⟨false, false, "network unreachable", true, "", none, true, "", false⟩ true).1.1 = false ∧
     (install_aces_from_zip_url
        ⟨false, false, "network unreachable", true, "", none, true, "", false⟩ true).2 = true) ∧
    ((install_aces_from_zip_url
        ⟨true, true, "", true, "", some "ocio_profile_version: 2\n".toList, false,
         "disk full", true⟩ false).1.1 = false ∧
     (install_aces_from_zip_url
        ⟨true, true, "", true, "", some "ocio_profile_version: 2\n".toList, false,
         "disk full", true⟩ false).2 = true) := by
  decide

/-- C3 (amended): every failing run of `install_aces_from_zip_url` —
download, extraction, marker location, compatibility check or stage-copy —
returns failure with a nonempty descriptive message.  A failed re-install
leaves no staged profile behind provided the initial clearing loop actually
removed the old staged copy (its per-item errors are silently swallowed)
and a failing staging step did not itself deposit the marker (a partial
`shutil.copytree` copies files before raising); indeed a marker present
after any failed run can only stem from one of those two escapes. -/
theorem install_failure_staging_guarantees (env : InstallEnv) (staged0 : Bool) :
    ((install_aces_from_zip_url env staged0).1.1 = false →
      (install_aces_from_zip_url env staged0).1.2.2 ≠ "") ∧
    (env.clearOk = true → env.copyPartialMarker = false →
      (install_aces_from_zip_url env staged0).1.1 = false →
      (install_aces_from_zip_url env staged0).2 = false) ∧
    ((install_aces_from_zip_url env staged0).1.1 = false →
      (install_aces_from_zip_url env staged0).2 = true →
      (staged0 = true ∧ env.clearOk = false) ∨ env.copyPartialMarker = true) := by
  obtain ⟨clOk, dOk, dErr, eOk, eErr, fc, cOk, cErr, cpm⟩ := env
  have h3 : (install_aces_from_zip_url
        ⟨clOk, dOk, dErr, eOk, eErr, fc, cOk, cErr, cpm⟩ staged0).1.1 = false →
      (install_aces_from_zip_url
        ⟨clOk, dOk, dErr, eOk, eErr, fc, cOk, cErr, cpm⟩ staged0).2 = true →
      (staged0 = true ∧ clOk = false) ∨ cpm = true := by
    cases dOk with
    | false =>
      intro _ h2
      revert h2
      cases clOk <;> cases staged0 <;> simp [install_aces_from_zip_url]
    | true =>
      cases eOk with
      | false =>
        intro _ h2
        revert h2
        cases clOk <;> cases staged0 <;> simp [install_aces_from_zip_url]
      | true =>
        cases fc with
        | none =>
          intro _ h2
          revert h2
          cases clOk <;> cases staged0 <;> simp [install_aces_from_zip_url]
        | some content =>
          cases hc : is_config_potentially_incompatible content with
          | true =>
            intro _ h2
            revert h2
            cases clOk <;> cases staged0 <;> simp [install_aces_from_zip_url, hc]
          | false =>
            cases cOk with
            | false =>
              have hres : install_aces_from_zip_url
                  ⟨clOk, true, dErr, true, eErr, some content, false, cErr, cpm⟩ staged0 =
                  ((false, none, "Failed to stage ACES config: " ++ cErr), cpm) := by
                simp [install_aces_from_zip_url, hc]
              rw [hres]
              exact fun _ h2 => Or.inr h2
            | true =>
              have hres : (install_aces_from_zip_url
                  ⟨clOk, true, dErr, true, eErr, some content, true, cErr, cpm⟩ staged0).1.1 =
                  true := by
                simp [install_aces_from_zip_url, hc]
              intro hfail
              rw [hres] at hfail
              exact absurd hfail (by decide)
  refine ⟨?_, ?_, h3⟩
  · intro hfail
    cases dOk with
    | false => exact append_ne_empty_left "Download failed: " dErr (by decide)
    | true =>
      cases eOk with
      | false => exact append_ne_empty_left "Extraction failed: " eErr (by decide)
      | true =>
        cases fc with
        | none =>
          exact show "Could not find config.ocio in the downloaded archive" ≠ "" by decide
        | some content =>
          cases hc : is_config_potentially_incompatible content with
          | true =>
            have hres : (install_aces_from_zip_url
                ⟨clOk, true, dErr, true, eErr, some content, cOk, cErr, cpm⟩ staged0).1.2.2 =
                "Downloaded config appears incompatible with OCIO v2 (XYZ role/name conflict)" := by
              simp [install_aces_from_zip_url, hc]
            rw [hres]
            decide
          | false =>
            cases cOk with
            | false =>
              have hres : (install_aces_from_zip_url
                  ⟨clOk, true, dErr, true, eErr, some content, false, cErr, cpm⟩ staged0).1.2.2 =
                  "Failed to stage ACES config: " ++ cErr := by
                simp [install_aces_from_zip_url, hc]
              rw [hres]
              exact append_ne_empty_left "Failed to stage ACES config: " cErr (by decide)
            | true =>
              have hres : (install_aces_from_zip_url
                  ⟨clOk, true, dErr, true, eErr, some content, true, cErr, cpm⟩ staged0).1.1 =
                  true := by
                simp [install_aces_from_zip_url, hc]
              rw [hres] at hfail
              exact absurd hfail (by decide)
  · intro hcl hcpm hfail
    cases hst : (install_aces_from_zip_url
        ⟨clOk, dOk, dErr, eOk, eErr, fc, cOk, cErr, cpm⟩ staged0).2 with
    | false => rfl
    | true =>
      rcases h3 hfail hst with ⟨-, hcl2⟩ | hcpm2
      · have hcl1 : clOk = true := hcl
        rw [hcl1] at hcl2
        exact absurd hcl2 (by decide)
      · have hcpm1 : cpm = false := hcpm
        rw [hcpm1] at hcpm2
        exact absurd hcpm2 (by decide)

/-- C3 witness: a failed download during a re-install over a previously
staged profile, with the clearing loop succeeding and no partial staging,
ends with a nonempty error message and no staged profile. -/
theorem install_failure_staging_guarantees_witness :
    (install_aces_from_zip_url
      ⟨true, false, "timeout", true, "", none, true, "", false⟩ true).1.2.2 ≠ "" ∧
    (install_aces_from_zip_url
      ⟨true, false, "timeout", true, "", none, true, "", false⟩ true).2 = false := by
  have h := install_failure_staging_guarantees
    ⟨true, false, "timeout", true, "", none, true, "", false⟩ true
  exact ⟨h.1 rfl, h.2.1 rfl rfl rfl⟩

/-- C4: `is_config_potentially_incompatible` is true exactly when the text
contains both role-declaration markers for the reserved identifier `XYZ`
(`"roles:"` and `"XYZ:"`) and the named-definition markers (`"name:"` and
`"name: XYZ"`); in particular it is false when either group is absent, and
text without the substring `XYZ` can never trigger it no matter which other
marker substrings it contains. -/
theorem incompat_heuristic_characterization (c : List Char) :
    (is_config_potentially_incompatible c = true ↔
      ("roles:".toList <:+: c ∧ "XYZ:".toList <:+: c ∧
       "name:".toList <:+: c ∧ "name: XYZ".toList <:+: c)) ∧
    (¬ "XYZ".toList <:+: c → is_config_potentially_incompatible c = false) := by
  have hchar : is_config_potentially_incompatible c = true ↔
      ("roles:".toList <:+: c ∧ "XYZ:".toList <:+: c ∧
       "name:".toList <:+: c ∧ "name: XYZ".toList <:+: c) := by
    simp [is_config_potentially_incompatible, pyIn, and_assoc]
  refine ⟨hchar, fun h => ?_⟩
  cases hval : is_config_potentially_incompatible c with
  | false => rfl
  | true =>
    rcases hchar.mp hval with ⟨-, hxyz, -, -⟩
    exact absurd ((show "XYZ".toList <:+: "XYZ:".toList by decide).trans hxyz) h

/-- C4 witness: a profile with both markers is flagged, one with the role
but no named definition is not, and one with the `roles:`/`name:`
substrings but no `XYZ` anywhere is not. -/
theorem incompat_heuristic_characterization_witness :
    is_config_potentially_incompatible "roles:\n  XYZ: xyz\n  - name: XYZ\n".toList = true ∧
    is_config_potentially_incompatible "roles:\n  XYZ: xyz\n".toList = false ∧
    is_config_potentially_incompatible "roles:\n  aces: x\nname: sRGB\n".toList = false := by
  refine ⟨(incompat_heuristic_characterization _).1.mpr (by decide), by decide,
    (incompat_heuristic_characterization _).2 (by decide)⟩

/-- C5: `_parse_version_string` maps `"v1.0.0"` and `"1.0.0"` to the same
numeric triple `(1,0,0)`; the comparison used by the update check is the
lexicographic order on `(major, minor, patch)` integer triples — so
`1.2.3 > 1.2.0`, `2.0.0 > 1.9.9` and `1.10.0 > 1.9.0` (where a string
comparison would fail) — and `check_addon_update` sets `update_available`
exactly when the parsed latest triple exceeds the current triple. -/
theorem version_compare_numeric_triples :
    _parse_version_string "v1.0.0" = _parse_version_string "1.0.0" ∧
    _parse_version_string "1.0.0" = (1, 0, 0) ∧
    pyTupleLt (_parse_version_string "1.2.0") (_parse_version_string "1.2.3") = true ∧
    pyTupleLt (_parse_version_string "1.2.3") (_parse_version_string "1.2.0") = false ∧
    pyTupleLt (_parse_version_string "1.9.9") (_parse_version_string "2.0.0") = true ∧
    pyTupleLt (_parse_version_string "1.9.0") (_parse_version_string "1.10.0") = true ∧
    ∀ (cur : Nat × Nat × Nat) (i : ReleaseInfo) (f : StateFile) (now : Nat),
      (check_addon_update cur (some i) f now).1.update_available =
        pyTupleLt cur
          (_parse_version_string (if i.version = "" then "0.0.0" else i.version)) := by
  refine ⟨by decide, by decide, by decide, by decide, by decide, by decide, ?_⟩
  intro cur i f now
  rfl

/-- C6: with auto-restart disabled, switching to the already-active target
is idempotent — a `switch_to_aces` call whose stored override already
equals the canonical installed-profile path performs no backup, appends no
ledger entry and returns success, leaving the state unchanged apart from
re-asserting the override and persisting preferences; and a
`switch_to_default` call with no override set performs no backup, appends
no ledger entry and returns success, only re-clearing the override (and the
`OCIO` environment variable) and persisting preferences. -/
theorem switch_same_target_idempotent (attempt : String → Bool × String) (pref : String)
    (benv : BackupEnv) (denv : DefaultBackupEnv) (st : SysState)
    (hinst : is_aces_installed st = true)
    (hov : st.override = get_aces_config_path) :
    switch_to_aces attempt pref benv denv false st =
      ((true, "Switched to ACES; restart Blender to apply fully"),
       { st with prefsSaved := true }) ∧
    (∀ st2 : SysState, st2.override = "" →
      switch_to_default benv false st2 =
        ((true, "Switched to Blender default; restart Blender to apply"),
         { st2 with envOCIO := none, prefsSaved := true })) := by
  constructor
  · have hmem : get_aces_config_path ∈ st.files := by
      simpa [is_aces_installed, List.contains] using hinst
    obtain ⟨files, ov, envO, sf, bd, ps, rs⟩ := st
    simp only at hov
    subst hov
    simp only [get_aces_config_path] at hmem
    simp [switch_to_aces, is_aces_installed, List.contains, hmem,
      set_ocio_config_override, save_user_prefs, get_aces_config_path]
  · intro st2 hov2
    obtain ⟨files, ov, envO, sf, bd, ps, rs⟩ := st2
    simp only at hov2
    subst hov2
    simp [switch_to_default, save_user_prefs]

/-- C6 witness: a concrete state already on ACES re-switched to ACES, and a
concrete override-free state switched to default; in both runs the ledger
file, backup count and file list are untouched. -/
theorem switch_same_target_idempotent_witness :
    switch_to_aces (fun _ => (false, "unused")) "" ⟨"t", true⟩ ⟨none, "t", true⟩ false
        ⟨["aces/config/config.ocio"], "aces/config/config.ocio", none, .absent, 0, false, false⟩ =
      ((true, "Switched to ACES; restart Blender to apply fully"),
       ⟨["aces/config/config.ocio"], "aces/config/config.ocio", none, .absent, 0, true, false⟩) ∧
    switch_to_default ⟨"t", true⟩ false
        ⟨["aces/config/config.ocio"], "", some "x", .absent, 0, false, false⟩ =
      ((true, "Switched to Blender default; restart Blender to apply"),
       ⟨["aces/config/config.ocio"], "", none, .absent, 0, true, false⟩) := by
  have h := switch_same_target_idempotent (fun _ => (false, "unused")) "" ⟨"t", true⟩ ⟨none, "t", true⟩
    ⟨["aces/config/config.ocio"], "aces/config/config.ocio", none, .absent, 0, false, false⟩
    (by decide) rfl
  exact ⟨h.1, h.2 ⟨["aces/config/config.ocio"], "", some "x", .absent, 0, false, false⟩ rfl⟩

/-- C7: the installer tries the caller-supplied preferred URL followed by
the ordered built-in fallbacks; the first source that succeeds wins — the
loop returns that source's success message having attempted exactly the
failing ones before it plus the winner, never the later sources — and when
every source fails the operation returns failure carrying exactly the
failure message of the last-attempted source. -/
theorem install_first_source_wins (attempt : String → Bool × String) (pref : String) :
    (∀ pre u post, buildUrls pref = pre ++ u :: post →
       (∀ v ∈ pre, (attempt v).1 = false) → (attempt u).1 = true →
       install_aces_thread pref attempt = (true, (attempt u).2, pre ++ [u])) ∧
    ((∀ v ∈ buildUrls pref, (attempt v).1 = false) →
       ∃ last, (buildUrls pref).getLast? = some last ∧
         install_aces_thread pref attempt = (false, (attempt last).2, buildUrls pref)) := by
  constructor
  · intro pre u post hdec hpre hu
    unfold install_aces_thread
    rw [hdec]
    exact tryUrlsRun_first_success attempt "Failed to install ACES" pre u post none hpre hu
  · intro hall
    have hne := buildUrls_ne_nil pref
    obtain ⟨pre, last, hdec⟩ : ∃ pre last, buildUrls pref = pre ++ [last] :=
      ⟨(buildUrls pref).dropLast, (buildUrls pref).getLast hne,
        (List.dropLast_append_getLast hne).symm⟩
    refine ⟨last, ?_, ?_⟩
    · rw [hdec]
      exact List.getLast?_concat _
    · unfold install_aces_thread
      rw [hdec]
      exact tryUrlsRun_all_fail_concat attempt "Failed to install ACES" pre last none
        (fun v hv => hall v (hdec ▸ List.mem_append_left _ hv))
        (hall last (hdec ▸ List.mem_append_right _ (by simp)))

/-- C7 witness: with no preference URL, an oracle accepting every source
stops after the first built-in URL with its message, and an oracle
rejecting every source reports the shared failure message of the last
attempt after trying the whole list. -/
theorem install_first_source_wins_witness :
    install_aces_thread "" (fun u => (u ≠ "", "src-" ++ u)) =
      (true,
       "src-https://github.com/AcademySoftwareFoundation/OpenColorIO-Config-ACES/archive/refs/heads/main.zip",
       ["https://github.com/AcademySoftwareFoundation/OpenColorIO-Config-ACES/archive/refs/heads/main.zip"]) ∧
    install_aces_thread "" (fun _ => (false, "boom")) =
      (false, "boom", buildUrls "") := by
  constructor
  · exact (install_first_source_wins (fun u => (decide (u ≠ ""), "src-" ++ u)) "").1 []
      "https://github.com/AcademySoftwareFoundation/OpenColorIO-Config-ACES/archive/refs/heads/main.zip"
      DEFAULT_ZIP_URLS.tail rfl (by simp) (by decide)
  · obtain ⟨last, _, hrun⟩ :=
      (install_first_source_wins (fun _ => (false, "boom")) "").2 (fun v _ => rfl)
    exact hrun

/-- C8: on a ledger file that parses as valid JSON, every ledger-writing
operation preserves all previously written backup records — the old
`backups` list is a prefix of the new one, so records are only appended,
never mutated or removed — the two backup routines leave the `update` field
alone, and `check_addon_update` rewrites the file with `backups` unchanged
and `update` overwritten in place. -/
theorem ledger_backups_append_only (benv : BackupEnv) (denv : DefaultBackupEnv)
    (st : SysState) (l : Ledger) (h : st.stateFile = .valid l)
    (cur : Nat × Nat × Nat) (info : Option ReleaseInfo) (now : Nat) :
    (l.backups <+: (load_state (backup_current_override_if_any benv st).2.stateFile).backups ∧
     (load_state (backup_current_override_if_any benv st).2.stateFile).update = l.update) ∧
    (l.backups <+: (load_state (backup_default_config_if_possible denv st).2.stateFile).backups ∧
     (load_state (backup_default_config_if_possible denv st).2.stateFile).update = l.update) ∧
    (check_addon_update cur info (.valid l) now).2 =
      .valid { l with update := some (check_addon_update cur info (.valid l) now).1 } := by
  refine ⟨?_, ?_, ?_⟩
  · unfold backup_current_override_if_any
    by_cases h1 : st.override = ""
    · simp [h1, h, load_state, List.prefix_refl]
    · by_cases h2 : st.override ∈ st.files
      · cases hc : benv.copyOk with
        | false => simp [h1, h2, hc, h, load_state, List.prefix_refl]
        | true => simp [h1, h2, hc, h, load_state, save_state, List.prefix_append]
      · simp [h1, h2, h, load_state, List.prefix_refl]
  · unfold backup_default_config_if_possible
    cases hf : denv.foundConfigDir with
    | none => simp [hf, h, load_state, List.prefix_refl]
    | some d =>
      cases hc : denv.copyOk with
      | false => simp [hf, hc, h, load_state, List.prefix_refl]
      | true => simp [hf, hc, h, load_state, save_state, List.prefix_append]
  · cases info <;> rfl

/-- C8 witness: a concrete backup over a one-record ledger appends a second
record, and the original record list is a prefix of the result. -/
theorem ledger_backups_append_only_witness :
    (load_state (backup_current_override_if_any ⟨"t1", true⟩
        ⟨["p/config.ocio"], "p/config.ocio", none,
         .valid { update := none, backups := [⟨"t0", "q", "b0", none⟩] }, 1, false, false⟩).2.stateFile).backups =
      [⟨"t0", "q", "b0", none⟩, ⟨"t1", "p", "backups/backup_t1", none⟩] ∧
    [(⟨"t0", "q", "b0", none⟩ : BackupRecord)] <+:
      (load_state (backup_current_override_if_any ⟨"t1", true⟩
        ⟨["p/config.ocio"], "p/config.ocio", none,
         .valid { update := none, backups := [⟨"t0", "q", "b0", none⟩] }, 1, false, false⟩).2.stateFile).backups := by
  refine ⟨by decide, ?_⟩
  exact (ledger_backups_append_only ⟨"t1", true⟩ ⟨none, "t1", true⟩
    ⟨["p/config.ocio"], "p/config.ocio", none,
     .valid { update := none, backups := [⟨"t0", "q", "b0", none⟩] }, 1, false, false⟩
    { update := none, backups := [⟨"t0", "q", "b0", none⟩] } rfl (0, 0, 0) none 0).1.1

/-- C9: for every archive whose entries all live under a single top-level
folder whose name differs from `blender_aces_manager` (and the folder is a
real directory, not `__MACOSX` debris), the repack step of
`install_addon_from_zip` produces an archive whose sole top-level name is
`blender_aces_manager` and whose files and byte contents are exactly those
of the original modulo the renamed root. -/
theorem repack_renames_single_root (entries : List (List String × String)) (top : String)
    (hne : entries ≠ [])
    (htop : top ≠ desired_module_name)
    (hmac : top ≠ "__MACOSX")
    (hall : ∀ e ∈ entries, e.1.head? = some top)
    (hdir : ∀ e ∈ entries, e.1.tail ≠ []) :
    install_addon_from_zip_repack entries =
      entries.map (fun e => (desired_module_name :: e.1.tail, e.2)) ∧
    zipTopLevels (install_addon_from_zip_repack entries) = [desired_module_name] ∧
    (install_addon_from_zip_repack entries).map (fun e => (e.1.tail, e.2)) =
      entries.map (fun e => (e.1.tail, e.2)) := by
  have _ := hdir
  have hmain : install_addon_from_zip_repack entries =
      entries.map fun e => (desired_module_name :: e.1.tail, e.2) := by
    unfold install_addon_from_zip_repack
    rw [zipTopLevels_const entries top hmac hne hall]
    simp only [htop, if_pos, ne_eq, not_false_iff]
    have hfilter : entries.filter (fun e => e.1.head? == some top) = entries :=
      List.filter_eq_self.mpr (fun e he => by simp [hall e he])
    rw [hfilter]
  refine ⟨hmain, ?_, ?_⟩
  · rw [hmain]
    apply zipTopLevels_const _ desired_module_name (by decide)
    · simp [hne]
    · intro e he
      obtain ⟨e0, _, rfl⟩ := List.mem_map.mp he
      rfl
  · rw [hmain, List.map_map]
    rfl

/-- C9 witness: a concrete two-file archive rooted at `repo-main` repacks
to the same files rooted at `blender_aces_manager`, which is then its sole
top-level name. -/
theorem repack_renames_single_root_witness :
    install_addon_from_zip_repack
        [(["repo-main", "__init__.py"], "init-code"), (["repo-main", "ui.py"], "ui-code")] =
      [(["blender_aces_manager", "__init__.py"], "init-code"),
       (["blender_aces_manager", "ui.py"], "ui-code")] ∧
    zipTopLevels (install_addon_from_zip_repack
        [(["repo-main", "__init__.py"], "init-code"), (["repo-main", "ui.py"], "ui-code")]) =
      ["blender_aces_manager"] := by
  have h := repack_renames_single_root
    [(["repo-main", "__init__.py"], "init-code"), (["repo-main", "ui.py"], "ui-code")]
    "repo-main" (by decide) (by decide) (by decide) (by decide) (by decide)
  exact ⟨h.1, h.2.1⟩

/-- C10: when `state.json` exists but is not parseable JSON, `load_state`
returns the empty state instead of an error, and the next ledger write
rewrites the file from that empty state — `check_addon_update` saves a
ledger holding only the fresh update result, and a backup saves a ledger
holding only the new record — silently discarding every previously
recorded backup record and the cached update-check result. -/
theorem corrupt_state_loads_empty_and_next_write_discards :
    load_state .corrupt = ({} : Ledger) ∧
    (∀ (cur : Nat × Nat × Nat) (info : Option ReleaseInfo) (now : Nat),
      (check_addon_update cur info .corrupt now).2 =
        .valid { update := some (check_addon_update cur info .corrupt now).1,
                 backups := [] }) ∧
    (∀ (benv : BackupEnv) (st : SysState),
      st.stateFile = .corrupt → benv.copyOk = true →
      st.override ≠ "" → st.override ∈ st.files →
      (backup_current_override_if_any benv st).2.stateFile =
        .valid { update := none,
                 backups := [{ time := benv.timestamp,
                               src_dir := dirname st.override,
                               backup_dir := "backups/backup_" ++ benv.timestamp,
                               kind := none }] }) := by
  refine ⟨rfl, ?_, ?_⟩
  · intro cur info now
    cases info <;> rfl
  · intro benv st hcorrupt hcopy hov hfile
    simp [backup_current_override_if_any, hov, hfile, hcopy, hcorrupt, load_state, save_state]

/-- C10 witness: a concrete backup over a corrupt ledger file leaves a
valid file holding exactly the one new record, whatever was recorded
before the corruption. -/
theorem corrupt_state_loads_empty_and_next_write_discards_witness :
    (backup_current_override_if_any ⟨"20250101-000000", true⟩
        ⟨["aces/config/config.ocio"], "aces/config/config.ocio", none, .corrupt, 0, false, false⟩).2.stateFile =
      .valid { update := none,
               backups := [{ time := "20250101-000000",
                             src_dir := "aces/config",
                             backup_dir := "backups/backup_20250101-000000",
                             kind := none }] } := by
  have h := corrupt_state_loads_empty_and_next_write_discards.2.2
    ⟨"20250101-000000", true⟩
    ⟨["aces/config/config.ocio"], "aces/config/config.ocio", none, .corrupt, 0, false, false⟩
    rfl rfl (by decide) (by decide)
  rw [h]
  decide
